import Mathlib

/-!
Shallow embedding of the project-argus core: the Argus monitor client and
context aggregator of `claude_argus_integration.py`, the helper layer of
`claude_argus_helpers.py`, and the rule-based scoring engine of
`argus_code_suggestions.py`.

Modelling conventions:
* Python strings are `String`, Python lists are `List`, and Python dicts of a
  known shape are structures whose fields mirror the `.get` keys the code reads.
* Every HTTP request is an explicit input of type `Except Failure _`: the
  `Except.error` case stands for any exception the surrounding `try` catches
  (connection error, `raise_for_status` on a non-2xx reply, or a body that the
  response processing raises on), carrying Python's `str(e)` text.
* String helpers are re-implemented over `List Char` by structural recursion so
  that every definition evaluates inside the kernel; they follow Python string
  semantics on the ASCII inputs the rules use.
* The repository copy of the sources stores the emoji of the user-facing
  messages as mojibake characters; the embedding reproduces those literal
  code points exactly.
-/

namespace Argus

/-- Characters Python `str.strip` / `str.split()` treat as whitespace
(ASCII range). -/
def isPySpace (c : Char) : Bool :=
  c = ' ' || c = '\t' || c = '\n' || c = '\r' || c = '\x0b' || c = '\x0c'

/-- Leading-segment test on char lists: `pat` starts `s`. -/
def lcIsLead : List Char → List Char → Bool
  | [], _ => true
  | _ :: _, [] => false
  | a :: as, b :: bs => a = b && lcIsLead as bs

/-- Python substring test `pat in s` on char lists. -/
def lcHasSub (pat : List Char) : List Char → Bool
  | [] => lcIsLead pat []
  | c :: t => lcIsLead pat (c :: t) || lcHasSub pat t

/-- Python `pat in s`. -/
def strIn (pat s : String) : Bool := lcHasSub pat.data s.data

/-- Python `s.startswith (p)`. -/
def strStarts (s p : String) : Bool := lcIsLead p.data s.data

/-- Python `s.endswith (p)`. -/
def strEnds (s p : String) : Bool := lcIsLead p.data.reverse s.data.reverse

/-- Python `s.strip()` restricted to ASCII whitespace. -/
def strStrip (s : String) : String :=
  String.mk (((s.data.dropWhile isPySpace).reverse.dropWhile isPySpace).reverse)

/-- Python `s.lower()` restricted to ASCII case folding. -/
def strLower (s : String) : String := String.mk (s.data.map Char.toLower)

/-- Split a char list at every character satisfying `p`; empty pieces are kept,
matching Python `str.split (sep)`. -/
def lcSplitP (p : Char → Bool) : List Char → List (List Char)
  | [] => [[]]
  | c :: rest =>
    if p c then [] :: lcSplitP p rest
    else
      match lcSplitP p rest with
      | [] => [[c]]
      | h :: t => (c :: h) :: t

/-- Python `code.split ('\n')`. -/
def strSplitNl (s : String) : List String :=
  (lcSplitP (fun c => c = '\n') s.data).map String.mk

/-- Python `s.split()`: split on whitespace runs, dropping empty pieces. -/
def strWords (s : String) : List String :=
  ((lcSplitP isPySpace s.data).filter (fun w => !w.isEmpty)).map String.mk

/-- Python `s.count (c)` for a one-character pattern. -/
def strCount (s : String) (c : Char) : Nat := s.data.count c

/-- Python `len (s)`: the number of characters. -/
def strLen (s : String) : Nat := s.data.length

/-- Python `sep.join (xs)`. -/
def strJoin (sep : String) : List String → String
  | [] => ""
  | [x] => x
  | x :: y :: t => x ++ sep ++ strJoin sep (y :: t)

/-- One request outcome caught by the Python `except` clauses: a connection
error, a non-2xx status via `raise_for_status`, or a body the response
processing raises on.  The string is Python's `str (e)`. -/
inductive Failure where
  | connectionError (msg : String)
  | httpStatus (msg : String)
  | malformedBody (msg : String)
  deriving DecidableEq

/-- The `str (e)` text used to build the `{"error": str(e)}` degraded values. -/
def Failure.message : Failure → String
  | .connectionError m => m
  | .httpStatus m => m
  | .malformedBody m => m

/-- A semi-structured record: a Python dict with string keys and values, such
as one error entry. -/
abbrev PyDict := List (String × String)

/-- Element of a list-shaped endpoint result: a genuine item, or the
`{"error": msg}` degraded marker dict. -/
inductive ErrOr (α : Type) where
  | val (a : α)
  | err (msg : String)
  deriving DecidableEq

/-- Result of a map-shaped endpoint: the processed dict, or the
`{"error": msg}` degraded dict. -/
inductive MapResult (α : Type) where
  | ok (a : α)
  | err (msg : String)
  deriving DecidableEq

/-- Parsed body of `GET /health` as read by `get_project_health`; each field
mirrors one `data.get` key, `none` standing for an absent key. -/
structure HealthBody where
  score : Option Int
  error_count : Option Int
  warning_count : Option Int
  technical_debt : Option String
  last_health_check : Option String
  deriving DecidableEq

/-- The dict `get_project_health` builds on success. -/
structure HealthDict where
  health_score : Int
  error_count : Int
  warning_count : Int
  technical_debt : String
  last_check : Option String
  total_files : Int
  total_size : Int
  deriving DecidableEq

/-- One entry of the `languages` array as read by `get_detected_languages`
(`name` is the mandatory `lang["language"]["name"]`; the `frameworks` field
carries the `f["name"]` values). -/
structure RawLang where
  name : String
  file_count : Int
  line_count : Int
  frameworks : Option (List String)
  has_tests : Option Bool
  has_linting : Option Bool
  package_manager : Option String
  deriving DecidableEq

/-- The language dict `get_detected_languages` builds per entry. -/
structure LangDict where
  name : String
  file_count : Int
  line_count : Int
  frameworks : List String
  has_tests : Bool
  has_linting : Bool
  package_manager : String
  deriving DecidableEq

/-- Body of `/errors` and `/changes`: the endpoint may return a bare JSON
array or an object whose named list field may be absent. -/
inductive ListOrObj where
  | asList (items : List PyDict)
  | asObj (items : Option (List PyDict))
  deriving DecidableEq

/-- Body of `/git`, returned unmodified by `get_git_status`; only these keys
are read downstream. -/
structure GitBody where
  is_dirty : Option Bool
  branch : Option String
  deriving DecidableEq

/-- Body of `/structure` as read by `get_project_structure`. -/
structure StructureBody where
  root_path : Option String
  files : Option (List PyDict)
  directories : Option (List PyDict)
  project_type : Option String
  main_files : Option (List String)
  config_files : Option (List String)
  deriving DecidableEq

/-- The dict `get_project_structure` builds on success. -/
structure StructureDict where
  root_path : String
  total_files : Nat
  file_types : List (String × Nat)
  directories : Nat
  project_type : String
  main_files : List String
  config_files : List String
  deriving DecidableEq

/-- Python `d.get (k)` on a `PyDict`. -/
def recGet (r : PyDict) (k : String) : Option String :=
  (r.find? (fun kv => kv.1 = k)).map (fun kv => kv.2)

/-- Count-up of one extension key, preserving Python dict insertion order. -/
def bumpKey : List (String × Nat) → String → List (String × Nat)
  | [], k => [(k, 1)]
  | (k0, n) :: t, k => if k0 = k then (k0, n + 1) :: t else (k0, n) :: bumpKey t k

/-- Embeds `os.path.splitext(p)[-1]`: the extension of the final path
component, empty when the component only has leading dots. -/
def splitextExt (p : String) : String :=
  let name := (lcSplitP (fun c => c = '/') p.data).getLastD []
  let afterDot := name.reverse.takeWhile (fun c => c ≠ '.')
  if afterDot.length = name.length then ""
  else
    let upto := name.reverse.drop afterDot.length
    if (upto.drop 1).any (fun c => c ≠ '.') then String.mk ('.' :: afterDot.reverse)
    else ""

/-- Embeds `ArgusClient._analyze_file_types`. -/
def analyze_file_types (files : List PyDict) : List (String × Nat) :=
  files.foldl (fun m fi =>
    let ext := strLower (splitextExt ((recGet fi ("path")).getD ("")))
    if ext = "" then m else bumpKey m ext) []

/-- Embeds `ArgusClient.is_available`: true exactly for a status-200 reply,
with every failure mode swallowed. -/
def is_available (r : Except Failure Nat) : Bool :=
  match r with
  | .error _ => false
  | .ok code => code = 200

/-- Embeds `ArgusClient.get_project_health`. -/
def get_project_health (r : Except Failure HealthBody) : MapResult HealthDict :=
  match r with
  | .error f => .err f.message
  | .ok d =>
    .ok { health_score := d.score.getD 0
          error_count := d.error_count.getD 0
          warning_count := d.warning_count.getD 0
          technical_debt := d.technical_debt.getD ("unknown")
          last_check := d.last_health_check
          total_files := 0
          total_size := 0 }

/-- Embeds `ArgusClient.get_detected_languages` (`data.get("languages", [])`
is the optional body list). -/
def get_detected_languages (r : Except Failure (Option (List RawLang))) :
    List (ErrOr LangDict) :=
  match r with
  | .error f => [.err f.message]
  | .ok b => (b.getD []).map (fun lang =>
      .val { name := lang.name
             file_count := lang.file_count
             line_count := lang.line_count
             frameworks := lang.frameworks.getD []
             has_tests := lang.has_tests.getD false
             has_linting := lang.has_linting.getD false
             package_manager := lang.package_manager.getD ("unknown") })

/-- Embeds `ArgusClient.get_active_errors`: `/errors` may answer with a bare
list or an object carrying an optional `errors` field. -/
def get_active_errors (r : Except Failure ListOrObj) : List (ErrOr PyDict) :=
  match r with
  | .error f => [.err f.message]
  | .ok (.asList xs) => xs.map .val
  | .ok (.asObj xs) => (xs.getD []).map .val

/-- Embeds `ArgusClient.get_recent_changes` (same both-shapes handling as
`/errors`). -/
def get_recent_changes (r : Except Failure ListOrObj) : List (ErrOr PyDict) :=
  match r with
  | .error f => [.err f.message]
  | .ok (.asList xs) => xs.map .val
  | .ok (.asObj xs) => (xs.getD []).map .val

/-- Embeds `ArgusClient.get_project_structure`. -/
def get_project_structure (r : Except Failure StructureBody) :
    MapResult StructureDict :=
  match r with
  | .error f => .err f.message
  | .ok d =>
    .ok { root_path := d.root_path.getD ("")
          total_files := (d.files.getD []).length
          file_types := analyze_file_types (d.files.getD [])
          directories := (d.directories.getD []).length
          project_type := d.project_type.getD ("unknown")
          main_files := d.main_files.getD []
          config_files := d.config_files.getD [] }

/-- Embeds `ArgusClient.get_git_status` (the body is returned unmodified). -/
def get_git_status (r : Except Failure GitBody) : MapResult GitBody :=
  match r with
  | .error f => .err f.message
  | .ok g => .ok g

/-- Embeds `ArgusClient.get_dependencies`
(`response.json().get("dependencies", [])`). -/
def get_dependencies (r : Except Failure (Option (List PyDict))) :
    List (ErrOr PyDict) :=
  match r with
  | .error f => [.err f.message]
  | .ok b => (b.getD []).map .val

/-- Embeds `ArgusClient.get_todos`. -/
def get_todos (r : Except Failure (Option (List PyDict))) : List (ErrOr PyDict) :=
  match r with
  | .error f => [.err f.message]
  | .ok b => (b.getD []).map .val

/-- Embeds `ArgusClient.get_running_processes`. -/
def get_running_processes (r : Except Failure (Option (List PyDict))) :
    List (ErrOr PyDict) :=
  match r with
  | .error f => [.err f.message]
  | .ok b => (b.getD []).map .val

/-- Embeds `ArgusClient.search_project`. -/
def search_project (_query : String) (r : Except Failure (Option (List PyDict))) :
    List (ErrOr PyDict) :=
  match r with
  | .error f => [.err f.message]
  | .ok b => (b.getD []).map .val

/-- Embeds `ArgusClient.get_project_topology` (body returned unmodified). -/
def get_project_topology (r : Except Failure PyDict) : MapResult PyDict :=
  match r with
  | .error f => .err f.message
  | .ok d => .ok d

/-- Embeds `ArgusClient.create_investigation_snapshot`; the payload fields are
only shaped into the POST body, the response is returned unmodified. -/
def create_investigation_snapshot (_name _description : String)
    (r : Except Failure PyDict) : MapResult PyDict :=
  match r with
  | .error f => .err f.message
  | .ok d => .ok d

/-- Embeds `ArgusClient.add_investigation_question` (payload also carries the
fixed `source` field; the response is returned unmodified). -/
def add_investigation_question (_question _priority : String)
    (r : Except Failure PyDict) : MapResult PyDict :=
  match r with
  | .error f => .err f.message
  | .ok d => .ok d

/-- Embeds `ArgusClient.add_investigation_finding`. -/
def add_investigation_finding (_title _description _impact _category : String)
    (r : Except Failure PyDict) : MapResult PyDict :=
  match r with
  | .error f => .err f.message
  | .ok d => .ok d

/-- One round of monitor responses: what each endpoint request receives during
a single aggregation pass.  Each field is an independent input, mirroring the
independent HTTP calls the Python client issues; `health_probe` is the
status-code reply of the `is_available` liveness GET. -/
structure Oracle where
  health_probe : Except Failure Nat
  health : Except Failure HealthBody
  languages : Except Failure (Option (List RawLang))
  errors : Except Failure ListOrObj
  structure_resp : Except Failure StructureBody
  changes : Except Failure ListOrObj
  git : Except Failure GitBody
  dependencies : Except Failure (Option (List PyDict))
  todos : Except Failure (Option (List PyDict))
  processes : Except Failure (Option (List PyDict))

/-- The composite dict built by `ClaudeArgusIntegration.get_project_context`
when Argus is available. -/
structure ProjectContextData where
  timestamp : String
  health : MapResult HealthDict
  languages : List (ErrOr LangDict)
  structure_info : MapResult StructureDict
  git_status : MapResult GitBody
  active_errors : List (ErrOr PyDict)
  recent_changes : List (ErrOr PyDict)
  dependencies : Nat
  todos : Nat
  running_processes : Nat
  deriving DecidableEq

/-- Result of `get_project_context`: the composite context, or the single
top-level `{"error": ...}` dict returned when Argus is unavailable. -/
inductive ContextResult where
  | errorDict (msg : String)
  | ctx (c : ProjectContextData)
  deriving DecidableEq

/-- The text of the top-level unavailability marker. -/
def availabilityErrorText : String :=
  "Argus is not available. Please start Argus first."

/-- The success branch of `get_project_context`: the fixed fan-out of
sub-queries merged positionally, with the error and change lists truncated to
their caps after retrieval and the three count fields taken as list lengths. -/
def buildContext (now : String) (o : Oracle) : ProjectContextData :=
  { timestamp := now
    health := get_project_health o.health
    languages := get_detected_languages o.languages
    structure_info := get_project_structure o.structure_resp
    git_status := get_git_status o.git
    active_errors := (get_active_errors o.errors).take 10
    recent_changes := (get_recent_changes o.changes).take 5
    dependencies := (get_dependencies o.dependencies).length
    todos := (get_todos o.todos).length
    running_processes := (get_running_processes o.processes).length }

/-- Embeds `ClaudeArgusIntegration.get_project_context`: probe first, then the
fan-out.  `now` is the `datetime.now().isoformat()` timestamp. -/
def get_project_context (now : String) (o : Oracle) : ContextResult :=
  if is_available o.health_probe then .ctx (buildContext now o)
  else .errorDict availabilityErrorText

/-- Python `context.get("active_errors")` as tested and measured by
`suggest_next_actions` (the unavailability dict has no such key, which is as
falsy as an empty list). -/
def ctxActiveErrors : ContextResult → List (ErrOr PyDict)
  | .errorDict _ => []
  | .ctx c => c.active_errors

/-- Python `context.get("git_status", {}).get("is_dirty")` truthiness. -/
def ctxIsDirty : ContextResult → Bool
  | .errorDict _ => false
  | .ctx c =>
    match c.git_status with
    | .err _ => false
    | .ok g => g.is_dirty.getD false

/-- Python `context.get("health", {}).get("health_score", 0)`. -/
def ctxHealthScore : ContextResult → Int
  | .errorDict _ => 0
  | .ctx c =>
    match c.health with
    | .err _ => 0
    | .ok h => h.health_score

/-- Python `context.get("dependencies", 0)`. -/
def ctxDependencyCount : ContextResult → Nat
  | .errorDict _ => 0
  | .ctx c => c.dependencies

/-- Builds a literal of the source file from code points (the repository copy
stores the emoji of the messages as mojibake characters, reproduced here
exactly). -/
def mojibakeStr (ns : List Nat) : String := String.mk (ns.map Char.ofNat)

/-- The three characters prefixing the fix-errors message. -/
def bugMoji : String := mojibakeStr [0x11F, 0x178, 0x203A]

/-- The four characters prefixing the commit message. -/
def diskMoji : String := mojibakeStr [0x11F, 0x178, 0x2019, 0xBE]

/-- The four characters prefixing the improve-quality message. -/
def wrenchMoji : String := mojibakeStr [0x11F, 0x178, 0x201D, 0xA7]

/-- The four characters prefixing the review-dependencies message. -/
def boxMoji : String := mojibakeStr [0x11F, 0x178, 0x201C, 0xA6]

/-- The three characters prefixing the fallback message. -/
def checkMoji : String := mojibakeStr [0xE2, 0x153, 0x2026]

/-- The fix-errors suggestion with its interpolated count. -/
def msgFixErrors (n : Nat) : String :=
  bugMoji ++ " Fix " ++ Nat.repr n ++ " active errors"

/-- The commit-pending-changes suggestion. -/
def msgCommit : String := diskMoji ++ " Commit pending changes"

/-- The improve-quality suggestion with its interpolated score. -/
def msgImprove (s : Int) : String :=
  wrenchMoji ++ " Improve code quality (current score: " ++ Int.repr s ++ "/100)"

/-- The review-dependencies suggestion. -/
def msgReviewDeps : String := boxMoji ++ " Review dependencies for updates"

/-- The positive fallback suggestion. -/
def msgLooksGood : String :=
  checkMoji ++ " Project looks good! Consider adding tests or documentation"

/-- The body of `suggest_next_actions` after the context fetch: four
independent checks appending in a fixed order, then the fallback when the
list stayed empty. -/
def suggestionsFor (context : ContextResult) : List String :=
  let s0 : List String := []
  let s1 := if (ctxActiveErrors context).isEmpty then s0
            else s0 ++ [msgFixErrors (ctxActiveErrors context).length]
  let s2 := if ctxIsDirty context then s1 ++ [msgCommit] else s1
  let s3 := if ctxHealthScore context < 90 then
              s2 ++ [msgImprove (ctxHealthScore context)]
            else s2
  let s4 := if 0 < ctxDependencyCount context then s3 ++ [msgReviewDeps] else s3
  if s4.isEmpty then [msgLooksGood] else s4

/-- Embeds `ClaudeArgusIntegration.suggest_next_actions`, which re-fetches the
context itself. -/
def suggest_next_actions (now : String) (o : Oracle) : List String :=
  suggestionsFor (get_project_context now o)

/-- The marker text of the helper layer (`claude_argus_helpers.py`). -/
def helpersUnavailableText : String := "Argus is not available"

/-- What the scoring engine reads from outside the supplied code text during
one call: a timestamp and the monitor responses of that moment.  All
`is_argus_available()` probes within the call are modelled by the single
`oracle.health_probe` reply. -/
structure MonitorView where
  now : String
  oracle : Oracle

/-- Embeds `claude_argus_helpers.get_current_errors`. -/
def get_current_errors (mv : MonitorView) : List (ErrOr PyDict) :=
  if is_available mv.oracle.health_probe then get_active_errors mv.oracle.errors
  else [.err helpersUnavailableText]

/-- The summary dict of `claude_argus_helpers.get_project_summary`. -/
structure SummaryDict where
  health_score : Int
  total_files : Nat
  project_type : String
  languages : Nat
  active_errors : Nat
  git_branch : String
  is_dirty : Bool
  deriving DecidableEq

/-- Result of `get_project_summary`: the summary dict, or a passed-through
`{"error": ...}` dict. -/
inductive SummaryResult where
  | err (msg : String)
  | ok (s : SummaryDict)
  deriving DecidableEq

/-- Embeds `claude_argus_helpers.get_project_summary`. -/
def get_project_summary (mv : MonitorView) : SummaryResult :=
  if is_available mv.oracle.health_probe then
    match get_project_context mv.now mv.oracle with
    | .errorDict m => .err m
    | .ctx c =>
      .ok { health_score := match c.health with
              | .err _ => 0
              | .ok h => h.health_score
            total_files := match c.structure_info with
              | .err _ => 0
              | .ok s => s.total_files
            project_type := match c.structure_info with
              | .err _ => "unknown"
              | .ok s => s.project_type
            languages := c.languages.length
            active_errors := c.active_errors.length
            git_branch := match c.git_status with
              | .err _ => "unknown"
              | .ok g => g.branch.getD ("unknown")
            is_dirty := match c.git_status with
              | .err _ => false
              | .ok g => g.is_dirty.getD false }
  else .err helpersUnavailableText

/-- Python `summary.get("health_score", 0)`. -/
def summaryHealthScore : SummaryResult → Int
  | .err _ => 0
  | .ok s => s.health_score

/-- Embeds `ArgusCodeSuggestions._detect_language_from_file`: the lowercased
`Path(file_path).suffix` through the fixed extension table.  `pathlib` takes
the extension of the final path component when its last dot is neither its
first nor its last character. -/
def pathSuffix (p : String) : String :=
  let name := ((lcSplitP (fun c => c = '/') p.data).filter
      (fun s => !s.isEmpty && s ≠ ['.'])).getLastD []
  let afterDot := name.reverse.takeWhile (fun c => c ≠ '.')
  if afterDot.length = name.length then ""
  else if 0 < name.length - afterDot.length - 1 && afterDot.length ≠ 0 then
    String.mk ('.' :: afterDot.reverse)
  else ""

/-- The fixed extension-to-language table of
`_detect_language_from_file`, defaulting to `unknown`. -/
def detect_language_from_file (fp : String) : String :=
  let ext := strLower (pathSuffix fp)
  if ext = ".py" then "python"
  else if ext = ".js" then "javascript"
  else if ext = ".ts" then "typescript"
  else if ext = ".go" then "go"
  else if ext = ".java" then "java"
  else if ext = ".c" then "c"
  else if ext = ".cpp" then "cpp"
  else if ext = ".cs" then "csharp"
  else if ext = ".php" then "php"
  else if ext = ".rb" then "ruby"
  else if ext = ".rs" then "rust"
  else if ext = ".html" then "html"
  else if ext = ".css" then "css"
  else if ext = ".sql" then "sql"
  else if ext = ".sh" then "bash"
  else "unknown"

/-- The debug-statement spellings of `_find_quality_issues`. -/
def debugMarkers : List String :=
  ["console.log", "print(", "println(", "fmt.Print", "System.out.print"]

/-- The findings of one pass of the common per-line loop of
`_find_quality_issues` (1-indexed line number `i`). -/
def lineQualityIssues (i : Nat) (line : String) : List String :=
  (if 120 < strLen line then
    ["Line " ++ Nat.repr i ++ ": Line too long (" ++ Nat.repr (strLen line)
      ++ " chars) - consider breaking it up"]
  else [])
  ++ (if strIn ("TODO") line || strIn ("FIXME") line then
    ["Line " ++ Nat.repr i ++ ": Address TODO/FIXME comment"]
  else [])
  ++ debugMarkers.filterMap (fun pat =>
    if strIn pat line && !strStarts (strStrip line) ("//")
        && !strStarts (strStrip line) ("#") then
      some ("Line " ++ Nat.repr i ++ ": Remove debugging statement (" ++ pat ++ ")")
    else none)

/-- Embeds `_find_python_quality_issues`. -/
def find_python_quality_issues (code : String) : List String :=
  (if strIn ("except:") code then
    ["Python: Avoid bare except clauses - specify exception types"]
  else [])
  ++ (if strIn ("import *") code then
    ["Python: Avoid wildcard imports - import specific items"]
  else [])

/-- Embeds `_find_go_quality_issues`. -/
def find_go_quality_issues (code : String) : List String :=
  (if strIn ("panic(") code then
    ["Go: Consider returning errors instead of using panic"]
  else [])
  ++ (if strIn ("fmt.Print") code && !strIn ("main(") code then
    ["Go: Consider using structured logging instead of fmt.Print"]
  else [])

/-- Embeds `_find_js_quality_issues`. -/
def find_js_quality_issues (code : String) : List String :=
  (if strIn ("==") code && !strIn ("===") code then
    ["JS: Use strict equality (===) instead of loose equality (==)"]
  else [])
  ++ (if strIn ("var ") code then
    ["JS: Consider using \x27let\x27 or \x27const\x27 instead of \x27var\x27"]
  else [])

/-- Embeds `ArgusCodeSuggestions._find_quality_issues`. -/
def find_quality_issues (code language : String) : List String :=
  let lines := strSplitNl code
  ((List.range lines.length).map
    (fun idx => lineQualityIssues (idx + 1) (lines.getD idx ("")))).flatten
  ++ (if language = "python" then find_python_quality_issues code
      else if language = "go" then find_go_quality_issues code
      else if language = "javascript" || language = "typescript" then
        find_js_quality_issues code
      else [])

/-- The fixed pattern table of `_find_security_issues`, verbatim from the
source (note the mixed-case `shell=True` and `innerHTML` entries). -/
def securityTable : List (String × String) :=
  [("password", "Avoid hardcoded passwords"),
   ("api_key", "Avoid hardcoded API keys"),
   ("secret", "Avoid hardcoded secrets"),
   ("token", "Be careful with token handling"),
   ("eval(", "Avoid eval() - security risk"),
   ("exec(", "Avoid exec() - security risk"),
   ("shell=True", "shell=True can be dangerous"),
   ("innerHTML", "innerHTML can lead to XSS"),
   ("document.write", "document.write can lead to XSS")]

/-- Embeds `ArgusCodeSuggestions._find_security_issues`: each table pattern is
tested as a substring of the lowercased whole text, contributing at most one
finding (the `language` argument is unused in the source as well). -/
def find_security_issues (code : String) (_language : String) : List String :=
  let code_lower := strLower code
  securityTable.filterMap (fun pm =>
    if strIn pm.1 code_lower then some ("Security: " ++ pm.2) else none)

/-- The nested-loop finding for 1-indexed line `i`. -/
def nestedLoopMsg (i : Nat) : String :=
  "Line " ++ Nat.repr i ++ ": Nested loops detected - consider optimization"

/-- Embeds `range(max(0, i), min(len(lines), i + 5))` with `i` the 1-based
line number: the 0-based indices of the next up-to-five lines. -/
def loopWindow (n idx : Nat) : List Nat :=
  ((List.range 5).map (fun d => idx + 1 + d)).filter (fun j => j < n)

/-- The per-line condition of the nested-loop detector. -/
def nestedLoopHit (lines : List String) (idx : Nat) : Bool :=
  strIn ("for ") (lines.getD idx ("")) &&
  (loopWindow lines.length idx).any (fun j => strIn ("for ") (lines.getD j ("")))

/-- Embeds `ArgusCodeSuggestions._find_performance_issues`. -/
def find_performance_issues (code language : String) : List String :=
  let lines := strSplitNl code
  (List.range lines.length).filterMap (fun idx =>
    if nestedLoopHit lines idx then some (nestedLoopMsg (idx + 1)) else none)
  ++ (if language = "python" then
        (if strIn ("+=") code && strIn ("for ") code then
          ["Performance: Consider using list comprehension instead of += in loops"]
        else [])
      else if language = "go" then
        (if strIn ("append(") code && strIn ("for ") code then
          ["Performance: Pre-allocate slices when size is known"]
        else [])
      else [])

/-- Embeds `_find_python_style_issues`. -/
def find_python_style_issues (code : String) : List String :=
  let lines := strSplitNl code
  ((List.range lines.length).map (fun idx =>
    let line := lines.getD idx ("")
    (if strEnds line (" ") then
      ["Line " ++ Nat.repr (idx + 1) ++ ": Remove trailing whitespace"]
    else [])
    ++ (if strIn ("==") line && (strIn ("True") line || strIn ("False") line) then
      ["Line " ++ Nat.repr (idx + 1)
        ++ ": Use \x27is True\x27 or \x27is False\x27 instead of \x27== True/False\x27"]
    else []))).flatten

/-- ASCII `[A-Z]` of the Go naming regex. -/
def isAsciiUpperCh (c : Char) : Bool := 'A' ≤ c && c ≤ 'Z'

/-- ASCII `[a-zA-Z]` of the Go naming regex. -/
def isAsciiAlphaCh (c : Char) : Bool :=
  ('A' ≤ c && c ≤ 'Z') || ('a' ≤ c && c ≤ 'z')

/-- Deterministic matcher for the regex fragment `func\s+[A-Z][a-zA-Z]*\s*\(`
at the head of a char list.  The character classes are disjoint and `(` lies
in none of them, so greedy maximal munch is exact here. -/
def goFuncDeclAt : List Char → Bool
  | 'f' :: 'u' :: 'n' :: 'c' :: rest =>
    match rest with
    | [] => false
    | c :: _ =>
      if isPySpace c then
        match rest.dropWhile isPySpace with
        | [] => false
        | u :: rest2 =>
          if isAsciiUpperCh u then
            match (rest2.dropWhile isAsciiAlphaCh).dropWhile isPySpace with
            | '(' :: _ => true
            | _ => false
          else false
      else false
  | _ => false

/-- Embeds `re.match(r".*func\s+[A-Z][a-zA-Z]*\s*\(", line)`: the leading
greedy `.*` may consume any prefix of the newline-free line, so the match
succeeds exactly when the fragment occurs anywhere. -/
def goFuncDeclSomewhere (line : String) : Bool :=
  line.data.tails.any goFuncDeclAt

/-- Embeds `_find_go_style_issues`. -/
def find_go_style_issues (code : String) : List String :=
  let lines := strSplitNl code
  ((List.range lines.length).map (fun idx =>
    let line := lines.getD idx ("")
    if strIn ("func ") line && strIn ("(") line && strIn (")") line then
      if !goFuncDeclSomewhere line && !strIn ("main(") line then
        if !strStarts (strStrip line) ("//") then
          ["Line " ++ Nat.repr (idx + 1)
            ++ ": Exported functions should start with capital letter"]
        else []
      else []
    else [])).flatten

/-- The whole-file semicolon-consistency finding. -/
def jsSemicolonMsg : String := "JS: Consider using semicolons consistently"

/-- Embeds `_find_js_style_issues`: flag iff
`code.count(';') < code.count('\n') / 2` (Python real division, so for
integers this is `2 * semicolons < newlines`). -/
def find_js_style_issues (code : String) : List String :=
  if 2 * strCount code ';' < strCount code '\n' then [jsSemicolonMsg] else []

/-- Embeds `ArgusCodeSuggestions._find_style_issues`. -/
def find_style_issues (code language : String) : List String :=
  if language = "python" then find_python_style_issues code
  else if language = "go" then find_go_style_issues code
  else if language = "javascript" || language = "typescript" then
    find_js_style_issues code
  else []

/-- The mutable state of an `ArgusCodeSuggestions` instance:
`self.project_context`, which is `None` or the last fetched context dict. -/
structure EngineState where
  project_context : Option ContextResult

/-- Python `context.get("structure", {}).get("project_type", "")` as read by
`_get_project_specific_suggestions`. -/
def ctxProjectTypeOrEmpty : ContextResult → String
  | .errorDict _ => ""
  | .ctx c =>
    match c.structure_info with
    | .err _ => ""
    | .ok s => s.project_type

/-- The fiber-framework suggestion. -/
def fiberMsg : String :=
  "Project: Consider using Fiber framework (already in project)"

/-- Embeds `_get_project_specific_suggestions`, which consults the stored
`self.project_context` snapshot. -/
def get_project_specific_suggestions (code file_path : String)
    (st : EngineState) : List String :=
  match st.project_context with
  | none => []
  | some pc =>
    if ctxProjectTypeOrEmpty pc = "go" && strEnds file_path (".go") then
      if strIn ("http") (strLower code) && !strIn ("fiber") (strLower code) then
        [fiberMsg]
      else []
    else []

/-- Python `str (d)` for a string-keyed, string-valued dict. -/
def pyReprDict (d : PyDict) : String :=
  "\x7b" ++ strJoin (", ")
    (d.map (fun kv => "\x27" ++ kv.1 ++ "\x27: \x27" ++ kv.2 ++ "\x27")) ++ "\x7d"

/-- Python `str (error)` for a list element of `get_current_errors`. -/
def pyReprErrOr : ErrOr PyDict → String
  | .err m => pyReprDict [("error", m)]
  | .val d => pyReprDict d

/-- The error-related insight text. -/
def insightRelateMsg : String :=
  "Argus: This code may relate to active error - verify carefully"

/-- The low-health insight text. -/
def insightHealthMsg : String :=
  "Argus: Project health is low - ensure this code doesn\x27t add complexity"

/-- Embeds `_get_argus_insights`, which issues fresh helper-layer calls for
the current errors and the project summary. -/
def get_argus_insights (code _file_path : String) (mv : MonitorView) :
    List String :=
  if is_available mv.oracle.health_probe then
    let errors := get_current_errors mv
    let part1 := (errors.take 3).filterMap (fun e =>
      let error_str := strLower (pyReprErrOr e)
      if (strWords error_str).any (fun w => 3 < strLen w && strIn w (strLower code))
      then some insightRelateMsg else none)
    part1 ++ (if summaryHealthScore (get_project_summary mv) < 50 then
                [insightHealthMsg]
              else [])
  else []

/-- The suggestions dict `analyze_code_block` returns, one field per category
plus the overall score. -/
structure AnalyzeResult where
  quality_issues : List String
  security_concerns : List String
  performance_hints : List String
  style_improvements : List String
  project_specific : List String
  argus_insights : List String
  overall_score : Nat
  deriving DecidableEq

/-- Embeds `ArgusCodeSuggestions.analyze_code_block`.  The instance state is
threaded explicitly so that its (non-)mutation is part of the embedding; `mv`
carries the monitor responses the insight rules read at call time.  The score
deducts ten points per finding in the quality, security and performance
categories, capped at eighty. -/
def analyze_code_block (st : EngineState) (code file_path language : String)
    (mv : MonitorView) : AnalyzeResult × EngineState :=
  let language := if language = "" ∧ ¬file_path = "" then
                    detect_language_from_file file_path
                  else language
  let q := find_quality_issues code language
  let s := find_security_issues code language
  let p := find_performance_issues code language
  let total := q.length + s.length + p.length
  ({ quality_issues := q
     security_concerns := s
     performance_hints := p
     style_improvements := find_style_issues code language
     project_specific := get_project_specific_suggestions code file_path st
     argus_insights := get_argus_insights code file_path mv
     overall_score := 100 - min (total * 10) 80 }, st)

/-- A benign full round of responses: healthy score 95, no errors, clean git,
no dependencies, todos or processes. -/
def oracleHealthy : Oracle :=
  { health_probe := .ok 200
    health := .ok ⟨some 95, some 0, some 0, some ("low"), none⟩
    languages := .ok (some [])
    errors := .ok (.asList [])
    structure_resp := .ok ⟨some (""), some [], some [], some ("go"), some [], some []⟩
    changes := .ok (.asList [])
    git := .ok ⟨some false, some ("main")⟩
    dependencies := .ok (some [])
    todos := .ok (some [])
    processes := .ok (some []) }

/-- A busy round of responses: health score 40, three active errors, a dirty
working tree and two dependencies. -/
def oracleBusy : Oracle :=
  { oracleHealthy with
    health := .ok ⟨some 40, some 3, some 1, some ("high"), none⟩
    errors := .ok (.asList [[("severity", "error"), ("message", "boom one")],
                            [("severity", "error"), ("message", "boom two")],
                            [("severity", "warning"), ("message", "boom three")]])
    git := .ok ⟨some true, some ("main")⟩
    dependencies := .ok (some [[("name", "fiber")], [("name", "gorm")]]) }

/-- A round of responses whose liveness probe fails with a connection error. -/
def offlineOracle : Oracle :=
  { oracleHealthy with health_probe := .error (.connectionError ("offline")) }

/-- A monitor view in which Argus is unreachable. -/
def offlineView : MonitorView := ⟨"T", offlineOracle⟩

/-- A benign round of responses in which only the dependencies call fails. -/
def oracleDepsDown : Oracle :=
  { oracleHealthy with
    dependencies := .error (.connectionError ("Connection refused")) }

/-- Arithmetic core of the score formula: the source's
`100 - min (k * 10) 80` equals both spec spellings. -/
lemma score_formula_arith (k : Nat) :
    100 - min (k * 10) 80 = 100 - min 80 (10 * k)
    ∧ 100 - min (k * 10) 80 = max 20 (100 - 10 * k) := by
  constructor <;> (simp only [Nat.min_def, Nat.max_def]; split_ifs <;> omega)

/-- A `filterMap` over an if-some-else-none function is a `filter`
followed by a `map`. -/
lemma filterMap_ite {α β : Type} (p : α → Bool) (f : α → β) :
    ∀ l : List α,
      l.filterMap (fun a => if p a then some (f a) else none)
        = (l.filter p).map f := by
  intro l
  induction l with
  | nil => rfl
  | cons a t ih =>
    by_cases h : p a <;> simp [List.filterMap_cons, List.filter_cons, h, ih]

/-- Membership in the five-line look-ahead window. -/
lemma loopWindow_mem (n idx j : Nat) :
    j ∈ loopWindow n idx ↔ idx < j ∧ j ≤ idx + 5 ∧ j < n := by
  simp only [loopWindow, List.mem_filter, List.mem_map, List.mem_range,
    decide_eq_true_eq]
  constructor
  · rintro ⟨⟨d, hd, rfl⟩, h⟩
    exact ⟨by omega, by omega, h⟩
  · rintro ⟨h1, h2, h3⟩
    exact ⟨⟨j - idx - 1, by omega, by omega⟩, h3⟩

/-- Two strings with different first characters differ. -/
lemma strNeOfHead (a b : String) (h : a.data.head? ≠ b.data.head?) : a ≠ b :=
  fun e => h (by rw [e])

/-- The fix-errors message never coincides with the fallback. -/
lemma msgFixErrors_ne (n : Nat) : msgFixErrors n ≠ msgLooksGood := by
  refine strNeOfHead _ _ ?_
  rw [show (msgFixErrors n).data.head? = some (Char.ofNat 0x11F) from rfl,
    show msgLooksGood.data.head? = some (Char.ofNat 0xE2) from rfl]
  decide

/-- The commit message never coincides with the fallback. -/
lemma msgCommit_ne : msgCommit ≠ msgLooksGood := by
  refine strNeOfHead _ _ ?_
  rw [show msgCommit.data.head? = some (Char.ofNat 0x11F) from rfl,
    show msgLooksGood.data.head? = some (Char.ofNat 0xE2) from rfl]
  decide

/-- The improve-quality message never coincides with the fallback. -/
lemma msgImprove_ne (s : Int) : msgImprove s ≠ msgLooksGood := by
  refine strNeOfHead _ _ ?_
  rw [show (msgImprove s).data.head? = some (Char.ofNat 0x11F) from rfl,
    show msgLooksGood.data.head? = some (Char.ofNat 0xE2) from rfl]
  decide

/-- The review-dependencies message never coincides with the fallback. -/
lemma msgReviewDeps_ne : msgReviewDeps ≠ msgLooksGood := by
  refine strNeOfHead _ _ ?_
  rw [show msgReviewDeps.data.head? = some (Char.ofNat 0x11F) from rfl,
    show msgLooksGood.data.head? = some (Char.ofNat 0xE2) from rfl]
  decide

/-- Follows the spec words for the decision table of the Recommendation
Synthesizer: four independent checks whose fired messages are concatenated in
the fixed order, with the fallback exactly when none fired. -/
def specDecisionTable (context : ContextResult) : List String :=
  let fired :=
    (if (ctxActiveErrors context).isEmpty then ([] : List String)
     else [msgFixErrors (ctxActiveErrors context).length])
    ++ (if ctxIsDirty context then [msgCommit] else [])
    ++ (if ctxHealthScore context < 90 then [msgImprove (ctxHealthScore context)]
        else [])
    ++ (if 0 < ctxDependencyCount context then [msgReviewDeps] else [])
  if fired.isEmpty then [msgLooksGood] else fired

/-- Follows the spec words for the semicolon heuristic: flag when the
semicolon count is below half the LINE count (the code actually compares
against half the newline count). -/
def specSemicolonFlag (code : String) : Bool :=
  2 * strCount code ';' < (strSplitNl code).length

/-- C1: for every code text and language (and any engine state, file path and
monitor view), the overall score equals `100 - min(80, 10*k)` where `k` is the
number of findings in the quality, security and performance categories of the
result, equivalently `max(20, 100 - 10*k)`; and the score is independent of
the engine state and monitor view that feed the project and insight
categories, so findings outside the three scored categories never change it. -/
theorem overall_score_formula (st : EngineState)
    (code file_path language : String) (mv : MonitorView) :
    ((analyze_code_block st code file_path language mv).1.overall_score
      = 100 - min 80 (10 *
          ((analyze_code_block st code file_path language mv).1.quality_issues.length
            + (analyze_code_block st code file_path language mv).1.security_concerns.length
            + (analyze_code_block st code file_path language mv).1.performance_hints.length)))
    ∧ ((analyze_code_block st code file_path language mv).1.overall_score
      = max 20 (100 - 10 *
          ((analyze_code_block st code file_path language mv).1.quality_issues.length
            + (analyze_code_block st code file_path language mv).1.security_concerns.length
            + (analyze_code_block st code file_path language mv).1.performance_hints.length)))
    ∧ (∀ (st2 : EngineState) (mv2 : MonitorView),
        (analyze_code_block st2 code file_path language mv2).1.overall_score
          = (analyze_code_block st code file_path language mv).1.overall_score) := by
  refine ⟨?_, ?_, fun st2 mv2 => rfl⟩
  · dsimp only [analyze_code_block]
    exact (score_formula_arith _).1
  · dsimp only [analyze_code_block]
    exact (score_formula_arith _).2

/-- C2: in the source the security scan lowercases the whole text but keeps
the mixed-case table entries `shell=True` and `innerHTML`, so those two
patterns can never match any input — `find_security_issues` returns no
finding on the literal texts `shell=True` and `innerHTML`, while the
lowercase patterns do work and the password scenario scores 90 as specified. -/
theorem security_scan_dead_patterns :
    find_security_issues ("shell=True") ("python") = []
    ∧ find_security_issues ("innerHTML") ("javascript") = []
    ∧ find_security_issues ("x = \x27password123\x27") ("python")
        = ["Security: Avoid hardcoded passwords"]
    ∧ (analyze_code_block ⟨none⟩ ("x = \x27password123\x27") ("") ("python")
        offlineView).1.security_concerns = ["Security: Avoid hardcoded passwords"]
    ∧ (analyze_code_block ⟨none⟩ ("x = \x27password123\x27") ("") ("python")
        offlineView).1.quality_issues = []
    ∧ (analyze_code_block ⟨none⟩ ("x = \x27password123\x27") ("") ("python")
        offlineView).1.overall_score = 90 := by
  refine ⟨by decide, by decide, by decide, by decide, by decide, by decide⟩

/-- C3 counterexample: when only the dependencies sub-query fails, the
resulting context stores a dependency count of 1 — the length of the
one-element degraded marker list — not the empty/zero default the claim
asserts for a failed field. -/
theorem failed_subquery_not_zero_default :
    ctxDependencyCount (get_project_context ("T") oracleDepsDown) = 1
    ∧ ctxDependencyCount (get_project_context ("T") oracleDepsDown) ≠ 0 := by
  refine ⟨by decide, by decide⟩

/-- C3 amended: each sub-query failure is confined to its own field of the
composite context; the map-shaped fields degrade to an explicit error marker,
the list fields to a one-element marker list, and the three count fields to
the number 1 (the marker list's length), which carries no degraded tag. -/
theorem subquery_failure_isolated (now : String) (o : Oracle) (f : Failure) :
    buildContext now { o with health := .error f }
      = { buildContext now o with health := .err f.message }
    ∧ buildContext now { o with structure_resp := .error f }
      = { buildContext now o with structure_info := .err f.message }
    ∧ buildContext now { o with git := .error f }
      = { buildContext now o with git_status := .err f.message }
    ∧ buildContext now { o with languages := .error f }
      = { buildContext now o with languages := [.err f.message] }
    ∧ buildContext now { o with errors := .error f }
      = { buildContext now o with active_errors := [.err f.message] }
    ∧ buildContext now { o with changes := .error f }
      = { buildContext now o with recent_changes := [.err f.message] }
    ∧ buildContext now { o with dependencies := .error f }
      = { buildContext now o with dependencies := 1 }
    ∧ buildContext now { o with todos := .error f }
      = { buildContext now o with todos := 1 }
    ∧ buildContext now { o with processes := .error f }
      = { buildContext now o with running_processes := 1 } :=
  ⟨rfl, rfl, rfl, rfl, rfl, rfl, rfl, rfl, rfl⟩

/-- C4: when the liveness probe answers false, `get_project_context` returns
the single top-level error dict, and the result does not depend on any other
endpoint response — no sub-query is consulted. -/
theorem unavailable_short_circuit (now : String) (o o2 : Oracle)
    (h : is_available o.health_probe = false)
    (h2 : o2.health_probe = o.health_probe) :
    get_project_context now o = .errorDict availabilityErrorText
    ∧ get_project_context now o2 = get_project_context now o := by
  constructor
  · simp [get_project_context, h]
  · simp [get_project_context, h2, h]

/-- C4 witness: the hypotheses hold at a concrete unreachable oracle, and a
second oracle differing in every sub-query response yields the identical
error marker. -/
theorem unavailable_short_circuit_witness :
    get_project_context ("T") offlineOracle = .errorDict availabilityErrorText
    ∧ get_project_context ("T")
        { oracleBusy with health_probe := .error (.connectionError ("offline")) }
      = get_project_context ("T") offlineOracle :=
  unavailable_short_circuit ("T") offlineOracle
    { oracleBusy with health_probe := .error (.connectionError ("offline")) }
    (by decide) rfl

/-- C5: every client operation maps every caught failure to a degraded value
instead of raising: the map-shaped operations return the error dict, and the
list-shaped operations return the one-element marker list, never the empty
list. -/
theorem client_failure_degraded_values (f : Failure)
    (query nm ds qu pr ti im ca : String) :
    get_project_health (.error f) = .err f.message
    ∧ get_project_structure (.error f) = .err f.message
    ∧ get_git_status (.error f) = .err f.message
    ∧ get_project_topology (.error f) = .err f.message
    ∧ create_investigation_snapshot nm ds (.error f) = .err f.message
    ∧ add_investigation_question qu pr (.error f) = .err f.message
    ∧ add_investigation_finding ti ds im ca (.error f) = .err f.message
    ∧ get_active_errors (.error f) = [.err f.message]
    ∧ get_recent_changes (.error f) = [.err f.message]
    ∧ get_detected_languages (.error f) = [.err f.message]
    ∧ get_dependencies (.error f) = [.err f.message]
    ∧ get_todos (.error f) = [.err f.message]
    ∧ get_running_processes (.error f) = [.err f.message]
    ∧ search_project query (.error f) = [.err f.message]
    ∧ get_active_errors (.error f) ≠ []
    ∧ get_recent_changes (.error f) ≠ []
    ∧ get_detected_languages (.error f) ≠ []
    ∧ get_dependencies (.error f) ≠ []
    ∧ get_todos (.error f) ≠ []
    ∧ get_running_processes (.error f) ≠ []
    ∧ search_project query (.error f) ≠ [] :=
  ⟨rfl, rfl, rfl, rfl, rfl, rfl, rfl, rfl, rfl, rfl, rfl, rfl, rfl, rfl,
    List.cons_ne_nil _ _, List.cons_ne_nil _ _, List.cons_ne_nil _ _,
    List.cons_ne_nil _ _, List.cons_ne_nil _ _, List.cons_ne_nil _ _,
    List.cons_ne_nil _ _⟩

/-- C6: `suggest_next_actions` realizes the four-check decision table — each
check appends independently in the fixed order and the fallback appears
exactly when none fired — and the two spec scenarios evaluate end-to-end to
the four ordered messages and to the single fallback respectively. -/
theorem next_actions_decision_table :
    (∀ context : ContextResult, suggestionsFor context = specDecisionTable context)
    ∧ (∀ context : ContextResult,
        suggestionsFor context = [msgLooksGood] ↔
          ((ctxActiveErrors context).isEmpty = true
            ∧ ctxIsDirty context = false
            ∧ ¬ctxHealthScore context < 90
            ∧ ctxDependencyCount context = 0))
    ∧ suggest_next_actions ("T") oracleBusy
        = [msgFixErrors 3, msgCommit, msgImprove 40, msgReviewDeps]
    ∧ suggest_next_actions ("T") oracleHealthy = [msgLooksGood] := by
  refine ⟨?_, ?_, by decide, by decide⟩
  · intro context
    cases h1 : (ctxActiveErrors context).isEmpty <;>
      cases h2 : ctxIsDirty context <;>
      by_cases h3 : ctxHealthScore context < 90 <;>
      by_cases h4 : 0 < ctxDependencyCount context <;>
      simp [suggestionsFor, specDecisionTable, h1, h2, h3, h4]
  · intro context
    cases h1 : (ctxActiveErrors context).isEmpty <;>
      cases h2 : ctxIsDirty context <;>
      by_cases h3 : ctxHealthScore context < 90 <;>
      by_cases h4 : 0 < ctxDependencyCount context <;>
      simp [suggestionsFor, h1, h2, h3, h4, msgFixErrors_ne, msgCommit_ne,
        msgImprove_ne, msgReviewDeps_ne, Nat.not_lt, Nat.le_zero] <;>
      omega

/-- C7: the nested-loop detector fires on a line exactly when the line holds
the loop token and one of the next up-to-five lines (strictly after it,
truncated at end of input) also does; the performance findings list the
qualifying lines once each, in order, before the language extras. -/
theorem nested_loop_window (code language : String) :
    (∀ idx : Nat,
      nestedLoopHit (strSplitNl code) idx = true ↔
        (strIn ("for ") ((strSplitNl code).getD idx ("")) = true
          ∧ ∃ j, idx < j ∧ j ≤ idx + 5 ∧ j < (strSplitNl code).length
              ∧ strIn ("for ") ((strSplitNl code).getD j ("")) = true))
    ∧ find_performance_issues code language =
        (((List.range (strSplitNl code).length).filter
            (fun i => nestedLoopHit (strSplitNl code) i)).map
          (fun i => nestedLoopMsg (i + 1)))
        ++ (if language = "python" then
              (if strIn ("+=") code && strIn ("for ") code then
                ["Performance: Consider using list comprehension instead of += in loops"]
              else [])
            else if language = "go" then
              (if strIn ("append(") code && strIn ("for ") code then
                ["Performance: Pre-allocate slices when size is known"]
              else [])
            else [])
    ∧ ((List.range (strSplitNl code).length).filter
        (fun i => nestedLoopHit (strSplitNl code) i)).Nodup := by
  refine ⟨?_, ?_, (List.nodup_range _).filter _⟩
  · intro idx
    simp only [nestedLoopHit, Bool.and_eq_true, List.any_eq_true]
    constructor
    · rintro ⟨hc, j, hj, hfor⟩
      obtain ⟨ha, hb, hn⟩ := (loopWindow_mem _ _ _).1 hj
      exact ⟨hc, j, ha, hb, hn, hfor⟩
    · rintro ⟨hc, j, h1, h2, h3, hfor⟩
      exact ⟨hc, j, (loopWindow_mem _ _ _).2 ⟨h1, h2, h3⟩, hfor⟩
  · dsimp only [find_performance_issues]
    rw [filterMap_ite]

/-- C8: the scoring engine threads its instance state unchanged and, given
the same code, file path, declared language, snapshot state and monitor view,
a repeated call returns the identical result dict — no hidden mutation, no
dependence on prior calls. -/
theorem analyze_idempotent_stateless (st : EngineState)
    (code file_path language : String) (mv : MonitorView) :
    (analyze_code_block st code file_path language mv).2 = st
    ∧ analyze_code_block ((analyze_code_block st code file_path language mv).2)
        code file_path language mv
      = analyze_code_block st code file_path language mv :=
  ⟨rfl, rfl⟩

/-- C9 counterexample: on the one-line input `x` (one line, no semicolons)
the spec rule of semicolons-below-half-the-line-count fires, but the code
emits no finding, because it compares against half the newline count. -/
theorem js_semicolon_line_count_cex :
    specSemicolonFlag ("x") = true
    ∧ find_style_issues ("x") ("javascript") = [] := by
  refine ⟨by decide, by decide⟩

/-- C9 amended: for the JavaScript/TypeScript family the style rules emit
exactly the one whole-file semicolon finding when the semicolon count is
below half the NEWLINE count of the text (half of line count minus one), and
nothing otherwise. -/
theorem js_semicolon_newline_rule (code language : String)
    (h : language = "javascript" ∨ language = "typescript") :
    find_style_issues code language =
      (if 2 * strCount code ';' < strCount code '\n' then [jsSemicolonMsg]
       else []) := by
  rcases h with h | h <;> subst h <;> rfl

/-- C9 witness: the amended rule applied at a concrete two-line no-semicolon
input produces the finding. -/
theorem js_semicolon_newline_rule_witness :
    find_style_issues ("a\nb") ("javascript") = [jsSemicolonMsg] := by
  rw [js_semicolon_newline_rule ("a\nb") ("javascript") (Or.inl rfl)]
  decide

/-- C10: a failed list-shaped sub-query leaves the one-element degraded
marker counted as one real item: the context records count 1 for failed
dependencies/todos/processes calls, and on an otherwise healthy project a
failed errors call makes `suggest_next_actions` report fixing one active
error, while a failed dependencies call triggers the review-dependencies
recommendation. -/
theorem degraded_marker_counted (now : String) (o : Oracle) (f : Failure) :
    (buildContext now { o with dependencies := .error f }).dependencies = 1
    ∧ (buildContext now { o with todos := .error f }).todos = 1
    ∧ (buildContext now { o with processes := .error f }).running_processes = 1
    ∧ suggest_next_actions now { oracleHealthy with errors := .error f }
        = [msgFixErrors 1]
    ∧ suggest_next_actions now { oracleHealthy with dependencies := .error f }
        = [msgReviewDeps] :=
  ⟨rfl, rfl, rfl, rfl, rfl⟩

end Argus
